import Mathlib

/-!
Verification of the btc-alerts repository against its design document.

The development shallowly embeds the algorithmic core of the repository:
* `alerts.py`: zone computation (`compute_zones`), regime normalisation
  (`norm_regime`) and the mean-revert quality filter (`mean_revert_ok`);
* `paper_exec.py`: trade planning (`plan_from_event`), the per-tick fill
  simulation of the main loop (`stepTick`), and the per-symbol cap enforced
  at event ingestion (`ingest_event`).

Python floats are modelled as rationals (`ℚ`); the source's float display
rounding `float(f"{x:.4f}")` / `float(f"{x:.6f}")` is modelled by `roundTo`
(rounding half away from zero rather than the binary-float half-to-even of
CPython, which coincides on every value arising below).  Environment-derived
module constants are either fixed to their defaults (`RISK_PCT`,
`ENTRY_PRICE_MODE`, ...) or passed as explicit parameters where a claim
quantifies over configurations.  Wall-clock reads (`time.time()`,
`now_iso()`, entry age) are passed in as explicit parameters.
-/

namespace BtcAlerts

/-- Round a rational to `d` decimal places, modelling Python's
`float(f"{x:.{d}f}")` string-format rounding. -/
def roundTo (d : ℕ) (x : ℚ) : ℚ := (round (x * 10 ^ d) : ℤ) / 10 ^ d

/-- Uppercase a string character-wise, modelling Python's `str.upper()`
(they agree on the ASCII labels in play; `String.toUpper` itself is not
kernel-reducible). -/
def upperStr (s : String) : String := String.mk (s.toList.map Char.toUpper)

/-- Substring test: `containsSub hay needle` models Python's
`needle in hay` on strings. -/
def containsSub (hay needle : String) : Bool :=
  go needle.toList hay.toList
where
  /-- Scan the haystack left to right looking for the needle as a prefix. -/
  go (n : List Char) : List Char → Bool
    | [] => n.isPrefixOf []
    | c :: cs => n.isPrefixOf (c :: cs) || go n cs

-- ---------------------------------------------------------------------------
-- alerts.py : regime normalisation (`norm_regime`, lines 395-407)
-- ---------------------------------------------------------------------------

/-- Embedding of `alerts.norm_regime`: project a free-text regime label onto
the fixed key set by ordered substring matching. -/
def norm_regime (regime_raw : String) : String :=
  let r := upperStr regime_raw
  if containsSub r "RANGE" then "RANGE"
  else if containsSub r "TRANSITION" then "TRANSITION"
  else if containsSub r "SQUEEZE" || containsSub r "SHORT COVER" then "SHORT_SQUEEZE"
  else if containsSub r "LONG UNWIND" then "LONG_UNWIND"
  else if containsSub r "DELEVERAGING" then "DELEVERAGING"
  else "UNKNOWN"

/-- C6: `norm_regime` is total: every input string (the empty string included)
is mapped to exactly one of the six regime keys; on strings containing several
keywords the fixed substring precedence
RANGE > TRANSITION > SQUEEZE/SHORT-COVER > LONG-UNWIND > DELEVERAGING is
respected, and unmatched strings fall to UNKNOWN. -/
theorem norm_regime_total_and_precedence (s : String) :
    (norm_regime s = "RANGE" ∨ norm_regime s = "TRANSITION" ∨
     norm_regime s = "SHORT_SQUEEZE" ∨ norm_regime s = "LONG_UNWIND" ∨
     norm_regime s = "DELEVERAGING" ∨ norm_regime s = "UNKNOWN") ∧
    (containsSub (upperStr s) "RANGE" = true → norm_regime s = "RANGE") ∧
    (containsSub (upperStr s) "RANGE" = false →
      containsSub (upperStr s) "TRANSITION" = true → norm_regime s = "TRANSITION") ∧
    (containsSub (upperStr s) "RANGE" = false →
      containsSub (upperStr s) "TRANSITION" = false →
      (containsSub (upperStr s) "SQUEEZE" = true ∨ containsSub (upperStr s) "SHORT COVER" = true) →
      norm_regime s = "SHORT_SQUEEZE") ∧
    (containsSub (upperStr s) "RANGE" = false →
      containsSub (upperStr s) "TRANSITION" = false →
      containsSub (upperStr s) "SQUEEZE" = false → containsSub (upperStr s) "SHORT COVER" = false →
      containsSub (upperStr s) "LONG UNWIND" = true → norm_regime s = "LONG_UNWIND") ∧
    (containsSub (upperStr s) "RANGE" = false →
      containsSub (upperStr s) "TRANSITION" = false →
      containsSub (upperStr s) "SQUEEZE" = false → containsSub (upperStr s) "SHORT COVER" = false →
      containsSub (upperStr s) "LONG UNWIND" = false →
      containsSub (upperStr s) "DELEVERAGING" = true → norm_regime s = "DELEVERAGING") ∧
    (containsSub (upperStr s) "RANGE" = false →
      containsSub (upperStr s) "TRANSITION" = false →
      containsSub (upperStr s) "SQUEEZE" = false → containsSub (upperStr s) "SHORT COVER" = false →
      containsSub (upperStr s) "LONG UNWIND" = false →
      containsSub (upperStr s) "DELEVERAGING" = false → norm_regime s = "UNKNOWN") := by
  simp only [norm_regime]
  cases h1 : containsSub (upperStr s) "RANGE" <;>
    cases h2 : containsSub (upperStr s) "TRANSITION" <;>
      cases h3 : containsSub (upperStr s) "SQUEEZE" <;>
        cases h4 : containsSub (upperStr s) "SHORT COVER" <;>
          cases h5 : containsSub (upperStr s) "LONG UNWIND" <;>
            cases h6 : containsSub (upperStr s) "DELEVERAGING" <;>
              simp

/-- C6 witness: the label "DELEVERAGING / LONG UNWIND" contains two keywords
and the precedence picks LONG_UNWIND. -/
theorem norm_regime_total_and_precedence_w :
    norm_regime "DELEVERAGING / LONG UNWIND" = "LONG_UNWIND" :=
  (norm_regime_total_and_precedence "DELEVERAGING / LONG UNWIND").2.2.2.2.1
    (by decide) (by decide) (by decide) (by decide) (by decide)

-- ---------------------------------------------------------------------------
-- alerts.py : zones (`Zones`, `compute_zones`, lines 348-377)
-- ---------------------------------------------------------------------------

/-- Embedding of the `Zones` dataclass of `alerts.py`. -/
structure Zones where
  upper_lo : ℚ
  upper_hi : ℚ
  lower_lo : ℚ
  lower_hi : ℚ
  width_pct : ℚ
deriving DecidableEq

/-- One candle row; the source indexes raw kline arrays with `k[2]` = high,
`k[3]` = low, `k[4]` = close (the other columns are never read by
`compute_zones`). -/
structure Candle where
  high : ℚ
  low : ℚ
  close : ℚ
deriving DecidableEq

/-- Maximum of a list, used for Python's `max(...)` on the (guarded
nonempty) high/low samples. -/
def listMax (l : List ℚ) : ℚ := l.foldl max (l.headD 0)

/-- Minimum of a list, mirror of `listMax`. -/
def listMin (l : List ℚ) : ℚ := l.foldl min (l.headD 0)

/-- Embedding of `alerts.compute_zones`.  `kl_1m[-n:]` becomes
`List.drop (length - n)`; the NaN-producing `safe_float` coercions are
subsumed by the `ℚ`-typed candle fields. -/
def compute_zones (kl_1m : List Candle) (atr : Option ℚ)
    (lookback_min : ℕ := 180) : Option Zones :=
  if kl_1m = [] then none
  else
    let n := min kl_1m.length (max 60 lookback_min)
    let sample := kl_1m.drop (kl_1m.length - n)
    let highs := sample.map Candle.high
    let lows := sample.map Candle.low
    let closes := (sample.filter fun k => decide (0 < k.close)).map Candle.close
    if closes = [] then none
    else
      let recent_high := listMax highs
      let recent_low := listMin lows
      let mid := closes.getLastD 0
      let pad0 : ℚ := match atr with
        | some a => if 0 < a then a * (1/4) else 0
        | none => 0
      let pad := max pad0 (mid * (7/10000))
      let upper_hi := recent_high
      let upper_lo := recent_high - pad
      let lower_lo := recent_low
      let lower_hi := recent_low + pad
      let width := max 0 (upper_lo - lower_hi)
      let width_pct := if 0 < mid then (width / mid) * 100 else 0
      some ⟨upper_lo, upper_hi, lower_lo, lower_hi, width_pct⟩

/-- Helper: the last element of a nonempty list is a member. -/
lemma getLastD_mem {α : Type} {l : List α} (d : α) (h : l ≠ []) :
    l.getLastD d ∈ l := by
  rw [List.getLastD_eq_getLast?, List.getLast?_eq_getLast _ h]
  simp [List.getLast_mem]

/-- C7: whenever the zone calculator returns a `Zones` value, the bands are
correctly ordered (`upper_lo ≤ upper_hi`, `lower_lo ≤ lower_hi`) and the
width percentage is non-negative. -/
theorem compute_zones_band_invariant (kl_1m : List Candle) (atr : Option ℚ)
    (lookback_min : ℕ) (z : Zones)
    (h : compute_zones kl_1m atr lookback_min = some z) :
    z.upper_lo ≤ z.upper_hi ∧ z.lower_lo ≤ z.lower_hi ∧ 0 ≤ z.width_pct := by
  unfold compute_zones at h
  split at h
  · exact absurd h (by simp)
  · dsimp only at h
    split at h
    · exact absurd h (by simp)
    · rename_i hne hc
      rw [Option.some.injEq] at h
      subst h
      set sample := kl_1m.drop (kl_1m.length - min kl_1m.length (max 60 lookback_min)) with hs
      set closes := (sample.filter fun k => decide (0 < k.close)).map Candle.close with hcl
      set mid := closes.getLastD 0 with hmid
      have hmem : mid ∈ closes := getLastD_mem 0 hc
      have hmidpos : 0 < mid := by
        rw [hcl] at hmem
        obtain ⟨k, hk, hkm⟩ := List.mem_map.mp hmem
        have h2 := (List.mem_filter.mp hk).2
        simp only [decide_eq_true_eq] at h2
        rwa [hkm] at h2
      have hpadpos :
          0 < max (match atr with
            | some a => if 0 < a then a * (1/4) else 0
            | none => 0) (mid * (7/10000)) :=
        lt_max_of_lt_right (by positivity)
      refine ⟨?_, ?_, ?_⟩
      · exact sub_le_self _ hpadpos.le
      · exact le_add_of_nonneg_right hpadpos.le
      · dsimp only
        rw [if_pos hmidpos]
        positivity

/-- Concrete single-candle window used to exercise the zone invariant. -/
def candleW : Candle := ⟨10, 5, 8⟩

/-- The zones computed from `candleW`: `pad = 8 * 0.0007 = 7/1250`. -/
def zonesW : Zones := ⟨12493/1250, 10, 5, 6257/1250, 1559/25⟩

/-- C7 witness: a concrete one-candle window on which the zone calculator
succeeds and the band invariant holds. -/
theorem compute_zones_band_invariant_w :
    compute_zones [candleW] none 180 = some zonesW ∧
    (zonesW.upper_lo ≤ zonesW.upper_hi ∧ zonesW.lower_lo ≤ zonesW.lower_hi ∧
      0 ≤ zonesW.width_pct) := by
  have h : compute_zones [candleW] none 180 = some zonesW := by
    simp only [compute_zones, candleW, zonesW, listMax, listMin, List.filter]
    norm_num
  exact ⟨h, compute_zones_band_invariant [candleW] none 180 zonesW h⟩

-- ---------------------------------------------------------------------------
-- alerts.py : mean-revert quality filter (`mean_revert_ok`, lines 505-525)
-- ---------------------------------------------------------------------------

/-- Embedding of `alerts.mean_revert_ok`.  The module globals
`MEAN_REVERT_MAX_WIDTH_PCT`, `OI_CONTRA_FILTER` and `OI_CONTRA_MIN_ABS`
(env-overridable, defaults 0.45 / on / 250) are explicit parameters
`maxWidthPct`, `oiFilter`, `minAbs`; the human-readable reason strings drop
the source's numeric interpolation. -/
def mean_revert_ok (maxWidthPct minAbs : ℚ) (oiFilter : Bool)
    (z : Zones) (oi15m : Option ℚ) (direction : String) : Bool × String :=
  if maxWidthPct < z.width_pct then
    (false, "blocked: width above cap")
  else
    match oiFilter, oi15m with
    | false, _ => (true, "ok")
    | true, none => (true, "ok")
    | true, some oi =>
      if |oi| < minAbs then (false, "blocked: abs OI delta below min")
      else if direction = "LONG" ∧ -minAbs < oi then
        (false, "blocked: OI delta not contra for LONG")
      else if direction = "SHORT" ∧ oi < minAbs then
        (false, "blocked: OI delta not contra for SHORT")
      else (true, "ok")

/-- Helper: acceptance condition of `mean_revert_ok` when the contra filter
is on and OI data is present. -/
lemma mean_revert_ok_some (maxWidthPct minAbs : ℚ) (z : Zones) (o : ℚ)
    (direction : String) :
    (mean_revert_ok maxWidthPct minAbs true z (some o) direction).1 = true ↔
      z.width_pct ≤ maxWidthPct ∧ minAbs ≤ |o| ∧
      ¬(direction = "LONG" ∧ -minAbs < o) ∧
      ¬(direction = "SHORT" ∧ o < minAbs) := by
  simp only [mean_revert_ok]
  split_ifs with h1 h2 h3 h4 <;> simp_all [not_lt]

/-- C8: the mean-revert quality filter rejects any setup whose zone width
exceeds the cap regardless of the other inputs; with the OI-contra filter on
and OI present it accepts exactly when the width passes, `|OIΔ| ≥ min_abs`
and the OI sign opposes the trade direction (`≤ -min_abs` for LONG,
`≥ +min_abs` for SHORT); with OI absent or the filter off only the width cap
applies. -/
theorem mean_revert_ok_characterisation (maxWidthPct minAbs : ℚ)
    (oiFilter : Bool) (z : Zones) (oi15m : Option ℚ) (direction : String) :
    (maxWidthPct < z.width_pct →
      (mean_revert_ok maxWidthPct minAbs oiFilter z oi15m direction).1 = false) ∧
    (∀ o : ℚ, oiFilter = true → oi15m = some o → direction = "LONG" →
      ((mean_revert_ok maxWidthPct minAbs oiFilter z oi15m direction).1 = true ↔
        z.width_pct ≤ maxWidthPct ∧ minAbs ≤ |o| ∧ o ≤ -minAbs)) ∧
    (∀ o : ℚ, oiFilter = true → oi15m = some o → direction = "SHORT" →
      ((mean_revert_ok maxWidthPct minAbs oiFilter z oi15m direction).1 = true ↔
        z.width_pct ≤ maxWidthPct ∧ minAbs ≤ |o| ∧ minAbs ≤ o)) ∧
    ((oiFilter = false ∨ oi15m = none) →
      ((mean_revert_ok maxWidthPct minAbs oiFilter z oi15m direction).1 = true ↔
        z.width_pct ≤ maxWidthPct)) := by
  refine ⟨fun h => by simp [mean_revert_ok, h], ?_, ?_, ?_⟩
  · rintro o rfl rfl rfl
    rw [mean_revert_ok_some]
    constructor
    · rintro ⟨hw, ha, hl, _⟩
      refine ⟨hw, ha, ?_⟩
      by_contra hlt
      exact hl ⟨rfl, not_le.mp hlt⟩
    · rintro ⟨hw, ha, hle⟩
      refine ⟨hw, ha, ?_, ?_⟩
      · rintro ⟨_, hlt⟩
        exact absurd hle (not_le.mpr hlt)
      · rintro ⟨hc, _⟩
        exact absurd hc (by decide)
  · rintro o rfl rfl rfl
    rw [mean_revert_ok_some]
    constructor
    · rintro ⟨hw, ha, _, hs⟩
      refine ⟨hw, ha, ?_⟩
      by_contra hlt
      exact hs ⟨rfl, not_le.mp hlt⟩
    · rintro ⟨hw, ha, hle⟩
      refine ⟨hw, ha, ?_, ?_⟩
      · rintro ⟨hc, _⟩
        exact absurd hc (by decide)
      · rintro ⟨_, hlt⟩
        exact absurd hle (not_le.mpr hlt)
  · rintro (rfl | rfl)
    · simp only [mean_revert_ok]
      split_ifs with h1
      · simp [not_le.mpr h1]
      · simp [le_of_not_lt h1]
    · cases oiFilter
      · simp only [mean_revert_ok]
        split_ifs with h1
        · simp [not_le.mpr h1]
        · simp [le_of_not_lt h1]
      · simp only [mean_revert_ok]
        split_ifs with h1
        · simp [not_le.mpr h1]
        · simp [le_of_not_lt h1]

/-- Wide zones used to exercise the width cap of the quality filter. -/
def zonesWide : Zones := ⟨0, 0, 0, 0, 1/2⟩

/-- C8 witness: with the default cap 0.45 a mean-revert LONG whose zone width
is 0.50 is rejected even though the OI-contra condition would pass. -/
theorem mean_revert_ok_characterisation_w :
    (mean_revert_ok (9/20) 250 true zonesWide (some (-300)) "LONG").1 = false :=
  (mean_revert_ok_characterisation (9/20) 250 true zonesWide
      (some (-300)) "LONG").1 (by norm_num [zonesWide])

-- ---------------------------------------------------------------------------
-- paper_exec.py : configuration defaults (lines 19-46)
-- ---------------------------------------------------------------------------

/-- Default `PAPER_RISK_PCT` (0.5% equity risk per trade). -/
def RISK_PCT : ℚ := 1/200

/-- Default `PAPER_LEVERAGE`. -/
def DEFAULT_LEVERAGE : ℤ := 5

/-- Default `PAPER_START_EQUITY`. -/
def START_EQUITY : ℚ := 1000

/-- Default `PAPER_ENTRY_PRICE_MODE` (ZONE: entry at the inner zone edge). -/
def ENTRY_PRICE_MODE : String := "ZONE"

/-- Default `PAPER_MAX_OPEN_PER_SYMBOL`. -/
def MAX_OPEN_TRADES_PER_SYMBOL : ℕ := 1

/-- Default `PAPER_ENTRY_TIMEOUT_SEC` (30 min). -/
def ENTRY_TIMEOUT_SEC : ℕ := 1800

/-- Per-tick execution configuration: the env-overridable globals
`TP1_CLOSE_FRAC`, `MOVE_SL_TO_BE_ON_TP1`, `BE_BUFFER_PCT` and
`PAPER_STOP_FILL_MODE` of `paper_exec.py`. -/
structure ExecConfig where
  tp1_close_frac : ℚ
  move_sl_to_be_on_tp1 : Bool
  be_buffer_pct : ℚ
  stop_fill_mode : String
deriving DecidableEq

/-- The default execution configuration (TP1 closes 50%, BE move on, zero BE
buffer, capped stop fill). -/
def defaultExecConfig : ExecConfig :=
  { tp1_close_frac := 1/2
    move_sl_to_be_on_tp1 := true
    be_buffer_pct := 0
    stop_fill_mode := "CAP" }

-- ---------------------------------------------------------------------------
-- paper_exec.py : data model (`Trade`, lines 115-144)
-- ---------------------------------------------------------------------------

/-- Embedding of the `Trade` dataclass.  The two ISO-timestamp strings are
carried opaquely (wall-clock reads are parameters of the functions below). -/
structure Trade where
  ts_created : String
  ts_closed : String
  trade_id : String
  exchange : String
  market : String
  symbol : String
  symbol_raw : String
  setup : String
  regime : String
  side : String
  status : String
  leverage : ℤ
  entry : ℚ
  sl : ℚ
  tp1 : ℚ
  tp2 : ℚ
  qty : ℚ
  filled_entry : ℚ
  filled_qty : ℚ
  tp1_hit : Bool
  tp1_qty_closed : ℚ
  pnl_usdt : ℚ
  pnl_pct_equity : ℚ
  close_reason : String
deriving DecidableEq, Inhabited

/-- A signal event as consumed by `plan_from_event`: the dict fields the
planner reads, already coerced (`safe_float` NaNs are subsumed by the `ℚ`
types, and the malformed-shape guard keeps the list-length checks). -/
structure Event where
  symbol : String
  symbol_raw : String
  setup : String
  regime : String
  market : String
  exchange : String
  lower : List ℚ
  upper : List ℚ
  close : ℚ
deriving DecidableEq

-- ---------------------------------------------------------------------------
-- paper_exec.py : planning (`plan_from_event`, lines 149-246)
-- ---------------------------------------------------------------------------

/-- Side derivation of `plan_from_event` (lines 173-175): SHORT when the
setup name mentions SHORT, LONG otherwise. -/
def plan_side (setup : String) : String :=
  if containsSub (upperStr setup) "SHORT" then "SHORT" else "LONG"

/-- Entry choice of `plan_from_event` (lines 178-181), keyed by the
`ENTRY_PRICE_MODE` default. -/
def plan_entry (side : String) (lower_lo lower_hi upper_lo upper_hi : ℚ) : ℚ :=
  if ENTRY_PRICE_MODE = "LOHI" then
    if side = "LONG" then lower_lo else upper_hi
  else
    if side = "LONG" then lower_hi else upper_lo

/-- Stop / TP1 / TP2 geometry of `plan_from_event` (lines 185-204), returned
as `(sl, tp1, tp2)`. -/
def plan_levels (side : String) (entry lower_lo lower_hi upper_lo upper_hi : ℚ) :
    ℚ × ℚ × ℚ :=
  let zone_h := max (1/1000000000) (lower_hi - lower_lo)
  let zone_u := max (1/1000000000) (upper_hi - upper_lo)
  let pad := max (1/2) ((if side = "LONG" then zone_h else zone_u) * (3/2))
  if side = "LONG" then
    let sl := lower_lo - pad
    let tp1 := min upper_lo (entry + (upper_lo - entry) * (35/100))
    let tp2 := upper_lo
    let tp2 := if tp2 ≤ entry then max (entry * (1001/1000)) (entry + |entry - sl| * (12/10)) else tp2
    let tp1 := if tp1 ≤ entry then entry + |entry - sl| * (6/10) else tp1
    (sl, tp1, tp2)
  else
    let sl := upper_hi + pad
    let tp1 := max lower_hi (entry - (entry - lower_hi) * (35/100))
    let tp2 := lower_hi
    let tp2 := if entry ≤ tp2 then min (entry * (999/1000)) (entry - |entry - sl| * (12/10)) else tp2
    let tp1 := if entry ≤ tp1 then entry - |entry - sl| * (6/10) else tp1
    (sl, tp1, tp2)

/-- Embedding of `paper_exec.plan_from_event`.  `tsec` models the
`int(time.time())` read used in `trade_id`; `now` models `now_iso()`.
`RISK_PCT` and `ENTRY_PRICE_MODE` are fixed to their defaults; the
side/entry/level locals are the helper functions above. -/
def plan_from_event (tsec : ℕ) (now : String) (evt : Event) (equity : ℚ)
    (leverage : ℤ) : Option Trade :=
  if evt.symbol = "" ∨ evt.lower.length ≠ 2 ∨ evt.upper.length ≠ 2 then none
  else
    let lower_lo := evt.lower.getD 0 0
    let lower_hi := evt.lower.getD 1 0
    let upper_lo := evt.upper.getD 0 0
    let upper_hi := evt.upper.getD 1 0
    if evt.close ≤ 0 then none
    else
      let side := plan_side evt.setup
      let entry := plan_entry side lower_lo lower_hi upper_lo upper_hi
      let levels := plan_levels side entry lower_lo lower_hi upper_lo upper_hi
      let sl := levels.1
      let tp1 := levels.2.1
      let tp2 := levels.2.2
      let per_unit_risk := |entry - sl|
      if per_unit_risk ≤ 0 then none
      else
        let risk_usdt := max 0 (equity * RISK_PCT)
        let qty := risk_usdt / per_unit_risk * (leverage : ℚ)
        if qty ≤ 0 then none
        else
          some
            { ts_created := now
              ts_closed := ""
              trade_id := toString tsec ++ "-" ++ evt.symbol_raw ++ "-" ++ evt.setup.take 16
              exchange := evt.exchange
              market := evt.market
              symbol := evt.symbol
              symbol_raw := evt.symbol_raw
              setup := evt.setup
              regime := evt.regime
              side := side
              status := "OPEN"
              leverage := leverage
              entry := roundTo 4 entry
              sl := roundTo 4 sl
              tp1 := roundTo 4 tp1
              tp2 := roundTo 4 tp2
              qty := roundTo 6 qty
              filled_entry := 0
              filled_qty := 0
              tp1_hit := false
              tp1_qty_closed := 0
              pnl_usdt := 0
              pnl_pct_equity := 0
              close_reason := "" }

-- ---------------------------------------------------------------------------
-- paper_exec.py : PnL and trigger helpers (lines 251-304)
-- ---------------------------------------------------------------------------

/-- Embedding of `paper_exec.pnl_for_move` (linear-swap approximation; the
`leverage` argument is taken but never used, exactly as in the source). -/
def pnl_for_move (side : String) (entry exit_px qty : ℚ) (leverage : ℤ) : ℚ :=
  if qty ≤ 0 then 0
  else if side = "LONG" then (exit_px - entry) * qty
  else (entry - exit_px) * qty

/-- Embedding of `paper_exec.should_fill_entry`. -/
def should_fill_entry (side : String) (entry px : ℚ) : Bool :=
  if side = "LONG" then px ≤ entry else entry ≤ px

/-- Embedding of `paper_exec.stop_triggered`. -/
def stop_triggered (side : String) (sl px : ℚ) : Bool :=
  if side = "LONG" then px ≤ sl else sl ≤ px

/-- Embedding of `paper_exec.tp1_triggered`. -/
def tp1_triggered (side : String) (tp1 px : ℚ) : Bool :=
  if side = "LONG" then tp1 ≤ px else px ≤ tp1

/-- Embedding of `paper_exec.tp2_triggered`. -/
def tp2_triggered (side : String) (tp2 px : ℚ) : Bool :=
  if side = "LONG" then tp2 ≤ px else px ≤ tp2

/-- Embedding of `paper_exec.apply_be_move`: after TP1, relocate the stop to
the realized entry plus/minus the breakeven buffer. -/
def apply_be_move (cfg : ExecConfig) (tr : Trade) : Trade :=
  if ¬cfg.move_sl_to_be_on_tp1 then tr
  else if tr.filled_qty ≤ 0 then tr
  else if tr.side = "LONG" then
    { tr with sl := roundTo 4 (tr.filled_entry * (1 + cfg.be_buffer_pct)) }
  else
    { tr with sl := roundTo 4 (tr.filled_entry * (1 - cfg.be_buffer_pct)) }

/-- Embedding of `paper_exec.stop_fill_price`: tick price in MARKET mode,
stop level in CAP mode. -/
def stop_fill_price (cfg : ExecConfig) (tr : Trade) (px : ℚ) : ℚ :=
  if cfg.stop_fill_mode = "MARKET" then px else tr.sl

-- ---------------------------------------------------------------------------
-- paper_exec.py : per-tick fill simulation (main loop body, lines 429-547)
-- ---------------------------------------------------------------------------

/-- One pass of the main-loop body for a single trade and a single tick
price (lines 429-547 of `paper_exec.py`), returning the persisted trade
record and equity.  `timedOut` models `age >= ENTRY_TIMEOUT_SEC`; `now`
models `now_iso()`.  Trades whose status is not OPEN are skipped unchanged
(line 430).  In the entry-fill branch the source mutates only the local
`Trade(**raw)` copy (lines 445-448) and then hits `continue` (line 466)
without any `open_trades[trade_id]` write-back — unlike every other branch —
so the persisted record is unchanged and the fill is lost; this function
returns that persisted (unchanged) record. -/
def stepTick (cfg : ExecConfig) (equity : ℚ) (tr : Trade) (px : ℚ)
    (timedOut : Bool) (now : String) : Trade × ℚ :=
  if tr.status ≠ "OPEN" then (tr, equity)
  else if tr.filled_qty ≤ 0 then
    if should_fill_entry tr.side tr.entry px then
      (tr, equity)
    else if timedOut then
      ({ tr with
          status := "CANCELED"
          ts_closed := now
          close_reason := "ENTRY_TIMEOUT_" ++ toString ENTRY_TIMEOUT_SEC ++ "s"
          pnl_usdt := 0
          pnl_pct_equity := 0 }, equity)
    else (tr, equity)
  else if stop_triggered tr.side tr.sl px then
    let exit_px := stop_fill_price cfg tr px
    let pnl := pnl_for_move tr.side tr.filled_entry exit_px tr.filled_qty tr.leverage
    let p := tr.pnl_usdt + pnl
    ({ tr with
        pnl_usdt := p
        status := "CLOSED"
        ts_closed := now
        close_reason := "SL"
        pnl_pct_equity := if 0 < equity then p / equity * 100 else 0 }, equity + p)
  else if !tr.tp1_hit && tp1_triggered tr.side tr.tp1 px then
    let qty_close := max 0 (min (tr.filled_qty * cfg.tp1_close_frac) tr.filled_qty)
    let pnl_add := pnl_for_move tr.side tr.filled_entry tr.tp1 qty_close tr.leverage
    let tr1 := apply_be_move cfg
      { tr with
          pnl_usdt := tr.pnl_usdt + pnl_add
          filled_qty := tr.filled_qty - qty_close
          tp1_hit := true
          tp1_qty_closed := tr.tp1_qty_closed + qty_close }
    if tr1.filled_qty ≤ 1/1000000000000 then
      ({ tr1 with
          status := "CLOSED"
          ts_closed := now
          close_reason := "TP1_FULL"
          pnl_pct_equity := if 0 < equity then tr1.pnl_usdt / equity * 100 else 0 },
        equity + tr1.pnl_usdt)
    else (tr1, equity)
  else if tp2_triggered tr.side tr.tp2 px then
    let pnl_add := pnl_for_move tr.side tr.filled_entry tr.tp2 tr.filled_qty tr.leverage
    let p := tr.pnl_usdt + pnl_add
    ({ tr with
        pnl_usdt := p
        filled_qty := 0
        status := "CLOSED"
        ts_closed := now
        close_reason := "TP2"
        pnl_pct_equity := if 0 < equity then p / equity * 100 else 0 }, equity + p)
  else (tr, equity)

/-- Fold `stepTick` over a list of successive tick prices (no entry
timeout, opaque `now`). -/
def runTicks (cfg : ExecConfig) (equity : ℚ) (tr : Trade) (pxs : List ℚ) :
    Trade × ℚ :=
  pxs.foldl (fun s px => stepTick cfg s.2 s.1 px false "") (tr, equity)

-- ---------------------------------------------------------------------------
-- paper_exec.py : per-symbol cap at event ingestion (lines 393-412)
-- ---------------------------------------------------------------------------

/-- Number of recorded trades for `sym` whose status is OPEN (line 403's
`per_sym` list length); `open_trades` is the `trade_id → Trade` dict as an
association list. -/
def countOpenSym (open_trades : List (String × Trade)) (sym : String) : ℕ :=
  (open_trades.filter fun p => decide (p.2.symbol = sym ∧ p.2.status = "OPEN")).length

/-- Python dict assignment `open_trades[k] = t`: replace the (unique)
binding of `k` if present, append otherwise. -/
def upsert (open_trades : List (String × Trade)) (k : String) (t : Trade) :
    List (String × Trade) :=
  match open_trades with
  | [] => [(k, t)]
  | p :: ps => if p.1 = k then (k, t) :: ps else p :: upsert ps k t

/-- Ingestion of one deduplicated signal event (lines 397-411): empty-symbol
guard, per-symbol cap check, planning, and recording of the planned trade.
`cap` is the env-overridable `MAX_OPEN_TRADES_PER_SYMBOL` (default 1). -/
def ingest_event (cap : ℕ) (tsec : ℕ) (now : String)
    (open_trades : List (String × Trade)) (evt : Event) (equity : ℚ)
    (leverage : ℤ) : List (String × Trade) :=
  if evt.symbol = "" then open_trades
  else if cap ≤ countOpenSym open_trades evt.symbol then open_trades
  else
    match plan_from_event tsec now evt equity leverage with
    | none => open_trades
    | some t => upsert open_trades t.trade_id t

-- ---------------------------------------------------------------------------
-- Helper lemmas about the step function and the planner
-- ---------------------------------------------------------------------------

/-- Helper: trades whose status is not OPEN are skipped unchanged. -/
lemma stepTick_eq_of_status_ne (cfg : ExecConfig) (equity : ℚ) (tr : Trade)
    (px : ℚ) (timedOut : Bool) (now : String) (h : tr.status ≠ "OPEN") :
    stepTick cfg equity tr px timedOut now = (tr, equity) := by
  simp [stepTick, h]

/-- Helper: the breakeven move touches only the stop level. -/
lemma apply_be_move_status (cfg : ExecConfig) (tr : Trade) :
    (apply_be_move cfg tr).status = tr.status := by
  simp only [apply_be_move]
  split_ifs <;> rfl

/-- Helper: fields of a successfully planned trade. -/
lemma plan_from_event_some {tsec : ℕ} {now : String} {evt : Event}
    {equity : ℚ} {leverage : ℤ} {t : Trade}
    (h : plan_from_event tsec now evt equity leverage = some t) :
    t.status = "OPEN" ∧ t.symbol = evt.symbol ∧ t.filled_qty = 0 ∧
    ∃ q : ℚ, 0 < q ∧ t.qty = roundTo 6 q := by
  unfold plan_from_event at h
  dsimp only at h
  split at h
  · exact absurd h (by simp)
  split at h
  · exact absurd h (by simp)
  split at h
  · exact absurd h (by simp)
  split at h
  · exact absurd h (by simp)
  rw [Option.some.injEq] at h
  subst h
  refine ⟨rfl, rfl, rfl, _, not_le.mp (by assumption), rfl⟩

/-- Helper: a rounded positive quantity is non-negative. -/
lemma roundTo_nonneg {d : ℕ} {q : ℚ} (hq : 0 ≤ q) : 0 ≤ roundTo d q := by
  unfold roundTo
  have h1 : (0:ℤ) ≤ round (q * 10 ^ d) := by
    rw [round_eq, Int.floor_nonneg]
    positivity
  positivity

-- ---------------------------------------------------------------------------
-- Claim theorems for the fill simulator
-- ---------------------------------------------------------------------------

/-- C5: once a trade is CLOSED or CANCELED, a tick of the fill-simulation
loop leaves the trade (every field) and the equity unchanged. -/
theorem closed_or_canceled_frozen (cfg : ExecConfig) (equity : ℚ) (tr : Trade)
    (px : ℚ) (timedOut : Bool) (now : String)
    (h : tr.status = "CLOSED" ∨ tr.status = "CANCELED") :
    stepTick cfg equity tr px timedOut now = (tr, equity) := by
  rcases h with h | h <;> simp [stepTick, h]

/-- Terminal trade used to exercise the freeze property. -/
def tradeClosedW : Trade :=
  { ts_created := "", ts_closed := "", trade_id := "w5", exchange := "mexc",
    market := "futures", symbol := "BTC/USDT:USDT", symbol_raw := "BTCUSDT",
    setup := "MEAN_REVERT_LOWER_TOUCH_LONG", regime := "RANGE_CHOP",
    side := "LONG", status := "CLOSED", leverage := 5,
    entry := 100, sl := 95, tp1 := 103, tp2 := 108, qty := 10,
    filled_entry := 100, filled_qty := 10, tp1_hit := false,
    tp1_qty_closed := 0, pnl_usdt := -50, pnl_pct_equity := -5,
    close_reason := "SL" }

/-- C5 witness: a concrete CLOSED trade is untouched by a further tick. -/
theorem closed_or_canceled_frozen_w :
    stepTick defaultExecConfig 1000 tradeClosedW 94 false "" =
      (tradeClosedW, 1000) :=
  closed_or_canceled_frozen defaultExecConfig 1000 tradeClosedW 94 false ""
    (Or.inl rfl)

/-- C2: on a tick where the stop condition holds for a filled OPEN trade, the
trade closes through the stop branch — status CLOSED, reason SL, PnL realized
at the stop-fill price — and no TP1 partial close or TP2 close happens,
whatever the TP1/TP2 geometry also says on that tick. -/
theorem stop_priority_over_targets (cfg : ExecConfig) (equity : ℚ)
    (tr : Trade) (px : ℚ) (timedOut : Bool) (now : String)
    (hopen : tr.status = "OPEN") (hfill : 0 < tr.filled_qty)
    (hstop : stop_triggered tr.side tr.sl px = true)
    (htp : tp1_triggered tr.side tr.tp1 px = true ∨
           tp2_triggered tr.side tr.tp2 px = true) :
    (stepTick cfg equity tr px timedOut now).1.status = "CLOSED" ∧
    (stepTick cfg equity tr px timedOut now).1.close_reason = "SL" ∧
    (stepTick cfg equity tr px timedOut now).1.pnl_usdt =
      tr.pnl_usdt + pnl_for_move tr.side tr.filled_entry
        (stop_fill_price cfg tr px) tr.filled_qty tr.leverage ∧
    (stepTick cfg equity tr px timedOut now).1.tp1_hit = tr.tp1_hit ∧
    (stepTick cfg equity tr px timedOut now).1.tp1_qty_closed =
      tr.tp1_qty_closed := by
  simp [stepTick, hopen, hstop, not_le.mpr hfill]

/-- Filled SHORT trade with inverted geometry: at tick 55 both the stop
(55 ≥ 50) and TP1 (55 ≤ 60) conditions hold. -/
def tradeBothW : Trade :=
  { ts_created := "", ts_closed := "", trade_id := "w2", exchange := "mexc",
    market := "futures", symbol := "ETH/USDT:USDT", symbol_raw := "ETHUSDT",
    setup := "MEAN_REVERT_UPPER_TOUCH_SHORT", regime := "RANGE_CHOP",
    side := "SHORT", status := "OPEN", leverage := 5,
    entry := 55, sl := 50, tp1 := 60, tp2 := 40, qty := 10,
    filled_entry := 55, filled_qty := 10, tp1_hit := false,
    tp1_qty_closed := 0, pnl_usdt := 0, pnl_pct_equity := 0,
    close_reason := "" }

/-- C2 witness: on the concrete trade `tradeBothW` at tick 55 the stop wins
over the simultaneously satisfied TP1 condition. -/
theorem stop_priority_over_targets_w :
    (stepTick defaultExecConfig 1000 tradeBothW 55 false "").1.status = "CLOSED" ∧
    (stepTick defaultExecConfig 1000 tradeBothW 55 false "").1.close_reason = "SL" ∧
    (stepTick defaultExecConfig 1000 tradeBothW 55 false "").1.pnl_usdt =
      tradeBothW.pnl_usdt + pnl_for_move tradeBothW.side tradeBothW.filled_entry
        (stop_fill_price defaultExecConfig tradeBothW 55) tradeBothW.filled_qty
        tradeBothW.leverage ∧
    (stepTick defaultExecConfig 1000 tradeBothW 55 false "").1.tp1_hit =
      tradeBothW.tp1_hit ∧
    (stepTick defaultExecConfig 1000 tradeBothW 55 false "").1.tp1_qty_closed =
      tradeBothW.tp1_qty_closed :=
  stop_priority_over_targets defaultExecConfig 1000 tradeBothW 55 false ""
    rfl (by norm_num [tradeBothW]) (by decide) (Or.inl (by decide))

-- ---------------------------------------------------------------------------
-- C3 : trade creation status and status lifecycle
-- ---------------------------------------------------------------------------

/-- A concrete well-formed mean-revert LONG signal event. -/
def eventW : Event :=
  { symbol := "ETH/USDT:USDT", symbol_raw := "ETHUSDT",
    setup := "MEAN_REVERT_LOWER_TOUCH_LONG", regime := "RANGE_CHOP",
    market := "futures", exchange := "mexc",
    lower := [95, 96], upper := [105, 106], close := 100 }

/-- The trade planned from `eventW` at `tsec = 0`, `now = ""`, equity 1000,
leverage 5: entry 96, stop 93.5, TP1 99.15, TP2 105, qty 10. -/
def tradePlannedW : Trade :=
  { ts_created := "", ts_closed := "",
    trade_id := "0-ETHUSDT-MEAN_REVERT_LOWE",
    exchange := "mexc", market := "futures",
    symbol := "ETH/USDT:USDT", symbol_raw := "ETHUSDT",
    setup := "MEAN_REVERT_LOWER_TOUCH_LONG", regime := "RANGE_CHOP",
    side := "LONG", status := "OPEN", leverage := 5,
    entry := 96, sl := 187/2, tp1 := 1983/20, tp2 := 105, qty := 10,
    filled_entry := 0, filled_qty := 0, tp1_hit := false, tp1_qty_closed := 0,
    pnl_usdt := 0, pnl_pct_equity := 0, close_reason := "" }

/-- Helper: `plan_from_event` on the concrete event `eventW` produces
exactly `tradePlannedW`. -/
lemma plan_eventW :
    plan_from_event 0 "" eventW 1000 5 = some tradePlannedW := by
  have hside : plan_side "MEAN_REVERT_LOWER_TOUCH_LONG" = "LONG" := by decide
  have hmode : ¬(ENTRY_PRICE_MODE = "LOHI") := by decide
  have hid : toString (0:ℕ) ++ "-" ++ "ETHUSDT" ++ "-" ++
      "MEAN_REVERT_LOWER_TOUCH_LONG".take 16 = "0-ETHUSDT-MEAN_REVERT_LOWE" := by decide
  simp only [plan_from_event, eventW, hside, plan_entry, plan_levels, hmode,
    RISK_PCT, roundTo, if_false]
  norm_num [max_def, min_def, abs_eq_max_neg, round_eq, tradePlannedW,
    Trade.mk.injEq, hid]
  intro hF
  exact absurd hF (by decide)

/-- C3 counterexample: the planner creates trades in status "OPEN" — there is
no PENDING_ENTRY status in the code (an unfilled trade is OPEN with
`filled_qty = 0`). -/
theorem plan_status_counterexample :
    (plan_from_event 0 "" eventW 1000 5).map Trade.status = some "OPEN" ∧
    "OPEN" ≠ "PENDING_ENTRY" := by
  rw [plan_eventW]
  exact ⟨rfl, by decide⟩

/-- C3 (amended): every planned trade is created in status OPEN; a tick
never changes the status of a non-OPEN trade (CLOSED and CANCELED are
terminal), and from OPEN a tick either keeps the status or moves it to
CLOSED or CANCELED — so the status always stays in {OPEN, CLOSED, CANCELED}
and transitions are monotonic. -/
theorem status_lifecycle :
    (∀ (tsec : ℕ) (now : String) (evt : Event) (equity : ℚ) (leverage : ℤ)
        (t : Trade), plan_from_event tsec now evt equity leverage = some t →
      t.status = "OPEN") ∧
    (∀ (cfg : ExecConfig) (equity : ℚ) (tr : Trade) (px : ℚ) (timedOut : Bool)
        (now : String), tr.status ≠ "OPEN" →
      stepTick cfg equity tr px timedOut now = (tr, equity)) ∧
    (∀ (cfg : ExecConfig) (equity : ℚ) (tr : Trade) (px : ℚ) (timedOut : Bool)
        (now : String),
      (stepTick cfg equity tr px timedOut now).1.status = tr.status ∨
      (tr.status = "OPEN" ∧
        ((stepTick cfg equity tr px timedOut now).1.status = "CLOSED" ∨
         (stepTick cfg equity tr px timedOut now).1.status = "CANCELED"))) := by
  refine ⟨fun _ _ _ _ _ _ h => (plan_from_event_some h).1,
    fun cfg equity tr px timedOut now h =>
      stepTick_eq_of_status_ne cfg equity tr px timedOut now h,
    fun cfg equity tr px timedOut now => ?_⟩
  by_cases hopen : tr.status = "OPEN"
  · have key : (stepTick cfg equity tr px timedOut now).1.status = tr.status ∨
        (stepTick cfg equity tr px timedOut now).1.status = "CLOSED" ∨
        (stepTick cfg equity tr px timedOut now).1.status = "CANCELED" := by
      unfold stepTick
      dsimp only
      split_ifs <;> simp [apply_be_move_status]
    rcases key with h | h | h
    · exact Or.inl h
    · exact Or.inr ⟨hopen, Or.inl h⟩
    · exact Or.inr ⟨hopen, Or.inr h⟩
  · rw [stepTick_eq_of_status_ne cfg equity tr px timedOut now hopen]
    exact Or.inl rfl

/-- Terminal (CANCELED) trade used in the lifecycle witness. -/
def tradeCanceledW : Trade :=
  { ts_created := "", ts_closed := "", trade_id := "w3", exchange := "mexc",
    market := "futures", symbol := "BTC/USDT:USDT", symbol_raw := "BTCUSDT",
    setup := "MEAN_REVERT_LOWER_TOUCH_LONG", regime := "RANGE_CHOP",
    side := "LONG", status := "CANCELED", leverage := 5,
    entry := 100, sl := 95, tp1 := 103, tp2 := 108, qty := 10,
    filled_entry := 0, filled_qty := 0, tp1_hit := false,
    tp1_qty_closed := 0, pnl_usdt := 0, pnl_pct_equity := 0,
    close_reason := "ENTRY_TIMEOUT_1800s" }

/-- C3 witness: the concretely planned trade starts OPEN, and a tick leaves
a concrete CANCELED trade untouched. -/
theorem status_lifecycle_w :
    tradePlannedW.status = "OPEN" ∧
    stepTick defaultExecConfig 1000 tradeCanceledW 100 false "" =
      (tradeCanceledW, 1000) :=
  ⟨status_lifecycle.1 0 "" eventW 1000 5 tradePlannedW plan_eventW,
   status_lifecycle.2.1 defaultExecConfig 1000 tradeCanceledW 100 false ""
     (by decide)⟩

-- ---------------------------------------------------------------------------
-- C1 / C4 : scenario trades (entry 100, stop 95, TP1 103, TP2 108, qty 10)
-- ---------------------------------------------------------------------------

/-- The Scenario A/B LONG trade, unfilled. -/
def tradeScenario : Trade :=
  { ts_created := "", ts_closed := "", trade_id := "sc", exchange := "mexc",
    market := "futures", symbol := "BTC/USDT:USDT", symbol_raw := "BTCUSDT",
    setup := "MEAN_REVERT_LOWER_TOUCH_LONG", regime := "RANGE_CHOP",
    side := "LONG", status := "OPEN", leverage := 5,
    entry := 100, sl := 95, tp1 := 103, tp2 := 108, qty := 10,
    filled_entry := 0, filled_qty := 0, tp1_hit := false, tp1_qty_closed := 0,
    pnl_usdt := 0, pnl_pct_equity := 0, close_reason := "" }

/-- Helper: while the scenario trade is unfilled, any tick (with no entry
timeout) leaves the persisted record and the equity unchanged — in
particular a tick that satisfies the entry condition, because the source
never writes the locally filled copy back to `open_trades`
(lines 445-448, 466). -/
lemma stepScenario_pending (px : ℚ) :
    stepTick defaultExecConfig 1000 tradeScenario px false "" =
      (tradeScenario, 1000) := by
  simp [stepTick, tradeScenario]

/-- C1: code bug — Scenario A does not happen in the code.  Tick 100
satisfies the LONG entry condition, but the entry-fill branch mutates only
the local `Trade(**raw)` copy and `continue`s without an
`open_trades[trade_id]` write-back, so the fill is never persisted: after
ticks [100, 94] the trade is still unfilled and OPEN with zero PnL, never
CLOSED with reason SL and pnl −50 as the claim (and spec Scenario A)
requires. -/
theorem scenarioA_fill_not_persisted :
    should_fill_entry "LONG" 100 100 = true ∧
    runTicks defaultExecConfig START_EQUITY tradeScenario [100, 94] =
      (tradeScenario, START_EQUITY) ∧
    (runTicks defaultExecConfig START_EQUITY tradeScenario [100, 94]).1.status = "OPEN" ∧
    (runTicks defaultExecConfig START_EQUITY tradeScenario [100, 94]).1.filled_qty = 0 ∧
    (runTicks defaultExecConfig START_EQUITY tradeScenario [100, 94]).1.pnl_usdt = 0 ∧
    (runTicks defaultExecConfig START_EQUITY tradeScenario [100, 94]).1.close_reason ≠
      "SL" := by
  have h2 : runTicks defaultExecConfig START_EQUITY tradeScenario [100, 94] =
      (tradeScenario, START_EQUITY) := by
    simp [runTicks, START_EQUITY, List.foldl, stepScenario_pending]
  refine ⟨by decide, h2, ?_, ?_, ?_, ?_⟩ <;> rw [h2] <;> simp [tradeScenario]

/-- C4: code bug — Scenario B does not happen in the code.  The tick-100
fill is lost exactly as in Scenario A (no `open_trades` write-back in the
entry-fill branch), and ticks 103 and 108 do not satisfy the LONG entry
condition, so after [100, 103, 108] the trade is still pending with zero
PnL: no TP1 partial close, no TP2 close, even though the TP1/TP2 price
geometry is reached on those ticks. -/
theorem scenarioB_fill_not_persisted :
    tp1_triggered "LONG" 103 103 = true ∧
    tp2_triggered "LONG" 108 108 = true ∧
    runTicks defaultExecConfig START_EQUITY tradeScenario [100, 103, 108] =
      (tradeScenario, START_EQUITY) ∧
    (runTicks defaultExecConfig START_EQUITY tradeScenario [100, 103, 108]).1.pnl_usdt = 0 ∧
    (runTicks defaultExecConfig START_EQUITY tradeScenario [100, 103, 108]).1.tp1_hit =
      false ∧
    (runTicks defaultExecConfig START_EQUITY tradeScenario [100, 103, 108]).1.status =
      "OPEN" ∧
    (runTicks defaultExecConfig START_EQUITY tradeScenario [100, 103, 108]).1.close_reason ≠
      "TP2" := by
  have h3 : runTicks defaultExecConfig START_EQUITY tradeScenario [100, 103, 108] =
      (tradeScenario, START_EQUITY) := by
    simp [runTicks, START_EQUITY, List.foldl, stepScenario_pending]
  refine ⟨by decide, by decide, h3, ?_, ?_, ?_, ?_⟩ <;> rw [h3] <;> simp [tradeScenario]

-- ---------------------------------------------------------------------------
-- C9 : planner sizing guards
-- ---------------------------------------------------------------------------

/-- C9 (amended): the planner discards the candidate whenever the planned
stop equals the planned entry (per-unit risk ≤ 0) or the computed quantity
`(equity · risk_fraction / |entry − stop|) · leverage` is non-positive, and
every trade it does return has `qty ≥ 0` (the 6-decimal rounding applied
after the positivity check can send a small positive quantity to 0). -/
theorem plan_qty_guard :
    (∀ (tsec : ℕ) (now : String) (evt : Event) (equity : ℚ) (leverage : ℤ)
        (t : Trade), plan_from_event tsec now evt equity leverage = some t →
      0 ≤ t.qty) ∧
    (∀ (tsec : ℕ) (now : String) (evt : Event) (equity : ℚ) (leverage : ℤ),
      (let side := plan_side evt.setup
       let entry := plan_entry side (evt.lower.getD 0 0) (evt.lower.getD 1 0)
         (evt.upper.getD 0 0) (evt.upper.getD 1 0)
       let sl := (plan_levels side entry (evt.lower.getD 0 0) (evt.lower.getD 1 0)
         (evt.upper.getD 0 0) (evt.upper.getD 1 0)).1
       |entry - sl| ≤ 0) →
      plan_from_event tsec now evt equity leverage = none) ∧
    (∀ (tsec : ℕ) (now : String) (evt : Event) (equity : ℚ) (leverage : ℤ),
      (let side := plan_side evt.setup
       let entry := plan_entry side (evt.lower.getD 0 0) (evt.lower.getD 1 0)
         (evt.upper.getD 0 0) (evt.upper.getD 1 0)
       let sl := (plan_levels side entry (evt.lower.getD 0 0) (evt.lower.getD 1 0)
         (evt.upper.getD 0 0) (evt.upper.getD 1 0)).1
       max 0 (equity * RISK_PCT) / |entry - sl| * (leverage : ℚ) ≤ 0) →
      plan_from_event tsec now evt equity leverage = none) := by
  refine ⟨?_, ?_, ?_⟩
  · intro tsec now evt equity leverage t h
    obtain ⟨-, -, -, q, hq, hqty⟩ := plan_from_event_some h
    rw [hqty]
    exact roundTo_nonneg hq.le
  · intro tsec now evt equity leverage hyp
    dsimp only at hyp
    rw [abs_nonpos_iff] at hyp
    simp only [List.getD_eq_getElem?_getD] at hyp
    by_cases h1 : evt.symbol = "" ∨ evt.lower.length ≠ 2 ∨ evt.upper.length ≠ 2
    · simp [plan_from_event, h1]
    · by_cases h2 : evt.close ≤ 0
      · simp [plan_from_event, h1, h2]
      · simp [plan_from_event, h1, h2, hyp]
  · intro tsec now evt equity leverage hyp
    dsimp only at hyp
    simp only [List.getD_eq_getElem?_getD] at hyp
    by_cases h1 : evt.symbol = "" ∨ evt.lower.length ≠ 2 ∨ evt.upper.length ≠ 2
    · simp [plan_from_event, h1]
    · by_cases h2 : evt.close ≤ 0
      · simp [plan_from_event, h1, h2]
      · by_cases h3 :
            |plan_entry (plan_side evt.setup) (evt.lower.getD 0 0) (evt.lower.getD 1 0)
                (evt.upper.getD 0 0) (evt.upper.getD 1 0) -
              (plan_levels (plan_side evt.setup)
                  (plan_entry (plan_side evt.setup) (evt.lower.getD 0 0) (evt.lower.getD 1 0)
                    (evt.upper.getD 0 0) (evt.upper.getD 1 0))
                  (evt.lower.getD 0 0) (evt.lower.getD 1 0) (evt.upper.getD 0 0)
                  (evt.upper.getD 1 0)).1| ≤ 0
        · rw [abs_nonpos_iff] at h3
          simp only [List.getD_eq_getElem?_getD] at h3
          simp [plan_from_event, h1, h2, h3]
        · rw [abs_nonpos_iff] at h3
          simp only [List.getD_eq_getElem?_getD] at h3
          simp [plan_from_event, h1, h2, h3, hyp]

/-- A well-formed event whose inverted lower band makes the planned entry
coincide with the planned stop (`entry = sl = 1/2`). -/
def eventDegenerate : Event :=
  { symbol := "BTC/USDT:USDT", symbol_raw := "BTCUSDT",
    setup := "MEAN_REVERT_LOWER_TOUCH_LONG", regime := "RANGE_CHOP",
    market := "futures", exchange := "mexc",
    lower := [1, 1/2], upper := [2, 3], close := 1 }

/-- C9 witness: the concretely planned trade has non-negative qty; an event
whose geometry makes the stop equal the entry is discarded; and with
equity 0 the computed quantity is non-positive and the event is discarded. -/
theorem plan_qty_guard_w :
    0 ≤ tradePlannedW.qty ∧
    plan_from_event 0 "" eventDegenerate 1000 5 = none ∧
    plan_from_event 0 "" eventW 0 5 = none :=
  ⟨plan_qty_guard.1 0 "" eventW 1000 5 tradePlannedW plan_eventW,
   plan_qty_guard.2.1 0 "" eventDegenerate 1000 5 (by
     have hside : plan_side "MEAN_REVERT_LOWER_TOUCH_LONG" = "LONG" := by decide
     have hmode : ¬(ENTRY_PRICE_MODE = "LOHI") := by decide
     simp only [eventDegenerate, hside, plan_entry, plan_levels, hmode, if_false]
     norm_num [max_def, min_def, abs_eq_max_neg]),
   plan_qty_guard.2.2 0 "" eventW 0 5 (by
     simp [RISK_PCT])⟩

/-- A well-formed event whose geometry is so wide that the planned
pre-rounding quantity is 10⁻⁷. -/
def eventTiny : Event :=
  { symbol := "BTC/USDT:USDT", symbol_raw := "BTCUSDT",
    setup := "MEAN_REVERT_LOWER_TOUCH_LONG", regime := "RANGE_CHOP",
    market := "futures", exchange := "mexc",
    lower := [0, 100000000], upper := [200000000, 250000000], close := 50 }

/-- C9 counterexample: on `eventTiny` (defaults: equity 1000, leverage 5) the
pre-rounding quantity 10⁻⁷ passes the positivity check but the stored qty is
rounded to 6 decimals, so the planner returns a trade with `qty = 0` — the
claimed strict positivity fails. -/
theorem plan_qty_zero_counterexample :
    (plan_from_event 0 "" eventTiny 1000 5).map Trade.qty = some 0 := by
  have hside : plan_side "MEAN_REVERT_LOWER_TOUCH_LONG" = "LONG" := by decide
  have hmode : ¬(ENTRY_PRICE_MODE = "LOHI") := by decide
  simp only [plan_from_event, eventTiny, hside, plan_entry, plan_levels, hmode,
    RISK_PCT, roundTo, if_false]
  norm_num [max_def, min_def, abs_eq_max_neg, round_eq]
  refine ⟨_, ⟨?_, rfl⟩, rfl⟩
  decide

-- ---------------------------------------------------------------------------
-- C10 : per-symbol cap on concurrent trades
-- ---------------------------------------------------------------------------

/-- Helper: a dict update adds at most one matching entry to the per-symbol
OPEN count (and only when the new trade itself matches). -/
lemma countOpenSym_upsert_le (trades : List (String × Trade)) (k : String)
    (t : Trade) (s : String) :
    countOpenSym (upsert trades k t) s ≤
      countOpenSym trades s +
        (if t.symbol = s ∧ t.status = "OPEN" then 1 else 0) := by
  induction trades with
  | nil =>
    simp only [upsert, countOpenSym, List.filter_cons, List.filter_nil,
      decide_eq_true_eq]
    split_ifs <;> simp
  | cons p ps ih =>
    by_cases hk : p.1 = k
    · simp only [upsert, if_pos hk]
      unfold countOpenSym
      simp only [List.filter_cons, List.length_cons, decide_eq_true_eq]
      split_ifs <;> simp_all <;> omega
    · simp only [upsert, if_neg hk]
      unfold countOpenSym at ih ⊢
      simp only [List.filter_cons, List.length_cons, decide_eq_true_eq] at ih ⊢
      split_ifs at ih ⊢ <;> simp_all <;> omega

/-- C10: ingestion never plans past the per-symbol cap — an event whose
symbol already has at least `cap` trades recorded with status OPEN is skipped
with the trade book unchanged, and if every per-symbol OPEN count is at most
`cap` before ingestion it stays at most `cap` after it. -/
theorem per_symbol_cap (cap tsec : ℕ) (now : String)
    (trades : List (String × Trade)) (evt : Event) (equity : ℚ)
    (leverage : ℤ) :
    (cap ≤ countOpenSym trades evt.symbol →
      ingest_event cap tsec now trades evt equity leverage = trades) ∧
    (∀ s, countOpenSym trades s ≤ cap →
      countOpenSym (ingest_event cap tsec now trades evt equity leverage) s ≤ cap) := by
  constructor
  · intro hcap
    unfold ingest_event
    split_ifs with h1 h2
    all_goals first
      | rfl
      | exact absurd hcap h2
  · intro s hs
    unfold ingest_event
    split_ifs with h1 h2
    · exact hs
    · exact hs
    · rcases hplan : plan_from_event tsec now evt equity leverage with _ | t
      · exact hs
      · have hsym : t.symbol = evt.symbol := (plan_from_event_some hplan).2.1
        have hle := countOpenSym_upsert_le trades t.trade_id t s
        dsimp only
        by_cases hse : s = evt.symbol
        · subst hse
          have hlt : countOpenSym trades evt.symbol < cap := not_le.mp h2
          have hone :
              (if t.symbol = evt.symbol ∧ t.status = "OPEN" then 1 else 0) ≤ 1 := by
            split_ifs <;> omega
          omega
        · have hz : (if t.symbol = s ∧ t.status = "OPEN" then 1 else 0) = 0 := by
            rw [if_neg]
            rintro ⟨hts, -⟩
            exact hse (hts ▸ hsym)
          omega

/-- A trade book holding one OPEN BTC trade. -/
def tradesW : List (String × Trade) := [("sc", tradeScenario)]

/-- A well-formed event for the same BTC symbol as `tradesW`. -/
def eventBtcW : Event :=
  { symbol := "BTC/USDT:USDT", symbol_raw := "BTCUSDT",
    setup := "MEAN_REVERT_LOWER_TOUCH_LONG", regime := "RANGE_CHOP",
    market := "futures", exchange := "mexc",
    lower := [95, 96], upper := [105, 106], close := 100 }

/-- C10 witness: with the default cap 1, an event for a symbol that already
has one OPEN trade is skipped and the trade book is unchanged. -/
theorem per_symbol_cap_w :
    ingest_event 1 0 "" tradesW eventBtcW 1000 5 = tradesW :=
  (per_symbol_cap 1 0 "" tradesW eventBtcW 1000 5).1 (by decide)

end BtcAlerts
